import Mathlib

/-!
Shallow embedding of the PyFlyWheel driver core (`pyflywheel/core.py`):
the command-frame codec, the telemetry decoder with its rolling buffer,
checksum validation, the command queue, and the public actuation surface.
Bytes are modelled as `ℕ` (with `< 256` bounds as hypotheses where needed),
byte strings as `List ℕ`, and Python floats as `ℚ` via an explicit
IEEE-754 binary32 round-to-nearest-even encoder mirroring
`struct.pack('>f', x)` / `struct.unpack('>f', bs)`.
-/

set_option maxRecDepth 100000

namespace PyFlyWheel

/-- Round the fraction `n / d` (with `d > 0`) to the nearest integer,
ties to even — the rounding mode of IEEE-754 used by `struct.pack`. -/
def roundHalfEven (n d : ℤ) : ℤ :=
  let q := n.ediv d
  let r := n - q * d
  if 2 * r < d then q
  else if d < 2 * r then q + 1
  else if q % 2 = 0 then q else q + 1

/-- `2^e ≤ n / d`, with the rational comparison cleared of denominators
so that only `ℕ` arithmetic remains. -/
def twoPowLe (n d : ℕ) (e : ℤ) : Bool :=
  if 0 ≤ e then d * 2 ^ e.toNat ≤ n else d ≤ n * 2 ^ (-e).toNat

/-- Largest exponent `e ∈ [-149, 127]` with `2^e ≤ n / d` (`-149` when
none): `⌊log₂ (n/d)⌋` clamped to the binary32 exponent range, computed by
bounded search so that the kernel can evaluate it. -/
def expFloor (n d : ℕ) : ℤ :=
  ((List.range 277).filterMap (fun i =>
      let e : ℤ := (i : ℤ) - 149
      if twoPowLe n d e then some e else none)).foldl max (-149)

/-- The 24-bit significand of `n / d` at exponent `e`: `(n/d) · 2^(23-e)`
rounded to the nearest integer, ties to even. -/
def significand (n d : ℕ) (e : ℤ) : ℤ :=
  if 0 ≤ 23 - e then roundHalfEven ((n : ℤ) * 2 ^ (23 - e).toNat) d
  else roundHalfEven n ((d : ℤ) * 2 ^ (e - 23).toNat)

/-- The 32 bits of the IEEE-754 binary32 encoding of `x`
(round to nearest, ties to even), as a natural number `< 2^32`.
Models the bit pattern produced by `struct.pack('>f', x)`. -/
def float32Bits (x : ℚ) : ℕ :=
  if x = 0 then 0
  else
    let s : ℕ := if x < 0 then 1 else 0
    let n : ℕ := x.num.natAbs
    let d : ℕ := x.den
    let e : ℤ := max (expFloor n d) (-126)
    let m : ℤ := significand n d e
    if m < 2^23 then
      -- subnormal range (e = -126 and the significand did not fill 24 bits)
      s * 2^31 + m.toNat
    else
      let me : ℤ × ℤ := if 2^24 ≤ m then (2^23, e + 1) else (m, e)
      if 127 < me.2 then s * 2^31 + 255 * 2^23       -- overflow: ±infinity
      else s * 2^31 + (me.2 + 127).toNat * 2^23 + (me.1.toNat - 2^23)

/-- Big-endian byte serialisation of the binary32 encoding of `x`:
the model of `struct.pack('>f', float(x))`. -/
def pack_f32 (x : ℚ) : List ℕ :=
  let b := float32Bits x
  [b / 2^24 % 256, b / 2^16 % 256, b / 2^8 % 256, b % 256]

/-- Big-endian binary32 decoding, the model of `struct.unpack('>f', bs)`.
Returns `none` for a wrong length and for exponent field 255
(infinities and NaNs, which have no image in `ℚ`). -/
def unpack_f32 (bs : List ℕ) : Option ℚ :=
  match bs with
  | [b0, b1, b2, b3] =>
    let bits : ℕ := b0 * 2^24 + b1 * 2^16 + b2 * 2^8 + b3
    let s : ℕ := bits / 2^31
    let E : ℕ := bits / 2^23 % 256
    let f : ℕ := bits % 2^23
    if E = 255 then none
    else
      -- magnitude: f·2⁻¹⁴⁹ when subnormal, (2²³+f)·2^(E−150) when normal,
      -- written as an explicit numerator/denominator pair for `mkRat`
      let nd : ℕ × ℕ :=
        if E = 0 then (f, 2^149)
        else if 150 ≤ E then ((2^23 + f) * 2^(E - 150), 1)
        else (2^23 + f, 2^(150 - E))
      some (mkRat (if s = 1 then -(nd.1 : ℤ) else nd.1) nd.2)
  | _ => none

/-! ## Command frame builders (`FlyWheel._build_*_command`, `poll_status`) -/

/-- `FlyWheel._build_speed_command`: `EB 90 D2 <f32 payload> <checksum>`
with `checksum = (0xD2 + sum(payload)) & 0xFF`. -/
def _build_speed_command (speed : ℚ) : List ℕ :=
  let speed_data := pack_f32 speed
  [0xEB, 0x90] ++ [0xD2] ++ speed_data ++ [(0xD2 + speed_data.sum) % 256]

/-- `FlyWheel._build_torque_command`: `EB 90 D3 <f32 payload> <checksum>`. -/
def _build_torque_command (torque : ℚ) : List ℕ :=
  let torque_bytes := pack_f32 torque
  [0xEB, 0x90] ++ [0xD3] ++ torque_bytes ++ [(0xD3 + torque_bytes.sum) % 256]

/-- `FlyWheel._build_current_command`: `EB 90 D1 <f32 payload> <checksum>`. -/
def _build_current_command (current : ℚ) : List ℕ :=
  let current_bytes := pack_f32 current
  [0xEB, 0x90] ++ [0xD1] ++ current_bytes ++ [(0xD1 + current_bytes.sum) % 256]

/-- The fixed poll frame literal built in `FlyWheel.poll_status`. -/
def pollCommand : List ℕ := [0xEB, 0x90, 0xDD, 0x00, 0x00, 0x00, 0x00, 0xDD]

/-! ## Driver state and the public actuation surface -/

/-- Exceptions the modelled operations can raise: Python's `ValueError`
(the spec's `OutOfRange`) and `ConnectionError`. -/
inductive PyError where
  | valueError : PyError
  | connectionError : PyError
deriving DecidableEq, Repr

/-- The command-side state of a `FlyWheel` instance: the connection flag,
whether the underlying serial port object is open, the bounded command
queue (`cmd_queue`, front of list = front of queue) and its capacity. -/
structure DriverState where
  is_connected : Bool
  serial_open : Bool
  cmd_queue : List (List ℕ)
  queue_maxsize : ℕ
deriving DecidableEq, Repr

/-- `FlyWheel._send_command`: `cmd_queue.put_nowait(command)`; on `Full`
(queue at a positive capacity) it logs and returns `False`, otherwise it
enqueues and returns `True`. -/
def _send_command (command : List ℕ) (st : DriverState) : Bool × DriverState :=
  if 0 < st.queue_maxsize ∧ st.queue_maxsize ≤ st.cmd_queue.length
  then (false, st)
  else (true, { st with cmd_queue := st.cmd_queue ++ [command] })

/-- `FlyWheel.set_speed`: range-check `-6050 ≤ speed ≤ 6050` (raising
`ValueError` outside it, with the state untouched), then build the frame
and `_send_command` it. -/
def set_speed (speed : ℚ) (st : DriverState) : Except PyError Bool × DriverState :=
  if ¬(-6050 ≤ speed ∧ speed ≤ 6050) then (.error .valueError, st)
  else
    let r := _send_command (_build_speed_command speed) st
    (.ok r.1, r.2)

/-- `FlyWheel.set_torque`: range-check `-50 ≤ torque ≤ 50`, then build
and enqueue. -/
def set_torque (torque : ℚ) (st : DriverState) : Except PyError Bool × DriverState :=
  if ¬(-50 ≤ torque ∧ torque ≤ 50) then (.error .valueError, st)
  else
    let r := _send_command (_build_torque_command torque) st
    (.ok r.1, r.2)

/-- `FlyWheel.set_current`: range-check `-1500 ≤ current ≤ 1500`, then
build and enqueue. -/
def set_current (current : ℚ) (st : DriverState) : Except PyError Bool × DriverState :=
  if ¬(-1500 ≤ current ∧ current ≤ 1500) then (.error .valueError, st)
  else
    let r := _send_command (_build_current_command current) st
    (.ok r.1, r.2)

/-- `FlyWheel.poll_status`: raises `ConnectionError` when not connected,
otherwise enqueues the fixed poll frame. -/
def poll_status (st : DriverState) : Except PyError Bool × DriverState :=
  if ¬st.is_connected then (.error .connectionError, st)
  else
    let r := _send_command pollCommand st
    (.ok r.1, r.2)

/-- `FlyWheel.connect`. `openOk` stands for the outcome of the external
`serial.open()` call (`false` = it raised). The source catches every
exception from the open attempt, logs, sets `_is_connected = False` and
returns `False`; it never raises. When already connected it only warns
and returns `True`. -/
def connect (openOk : Bool) (st : DriverState) : Except PyError Bool × DriverState :=
  if st.is_connected then (.ok true, st)
  else if st.serial_open then (.ok true, { st with is_connected := true })
  else if openOk then (.ok true, { st with serial_open := true, is_connected := true })
  else (.ok false, { st with is_connected := false })

/-! ## Telemetry data (`TelemetryData`, `FlyWheel._process_data`) -/

/-- The `TelemetryData` dataclass, minus its `timestamp` field (wall-clock
capture time, outside the model). `header`, `last_command` and `reserved`
hold the raw bytes that the source renders as hex strings — the rendering
is injective on the bytes, so nothing is lost. -/
structure TelemetryData where
  header : List ℕ
  last_command : ℕ
  control_target : ℚ
  flywheel_speed_feedback : ℚ
  flywheel_current_feedback : ℚ
  acceleration_feedback : ℚ
  command_response_count : ℕ
  telemetry_wheel_command_count : ℕ
  error_command_count : ℕ
  motherboard_current : ℕ
  temperature : ℤ
  single_motor_status : ℕ
  reserved : List ℕ
  checksum : ℕ
deriving DecidableEq, Repr

/-- `FlyWheel._process_data`: decode a 32-byte frame into a
`TelemetryData`. `none` models the source's `ValueError` on a wrong
length, and additionally an infinite/NaN float field (which `ℚ` cannot
represent; no claim touches such frames). -/
def _process_data (data : List ℕ) : Option TelemetryData :=
  if data.length ≠ 32 then none
  else do
    let ct ← unpack_f32 ((data.drop 4).take 4)
    let sp ← unpack_f32 ((data.drop 8).take 4)
    let cu ← unpack_f32 ((data.drop 12).take 4)
    let ac ← unpack_f32 ((data.drop 16).take 4)
    let t : ℕ := data.getD 25 0
    some
      { header := data.take 3
        last_command := data.getD 3 0
        control_target := ct
        flywheel_speed_feedback := sp
        flywheel_current_feedback := cu
        acceleration_feedback := ac
        command_response_count := data.getD 20 0
        telemetry_wheel_command_count := data.getD 21 0
        error_command_count := data.getD 22 0
        motherboard_current := data.getD 23 0 * 256 + data.getD 24 0
        temperature := if t < 128 then (t : ℤ) else (t : ℤ) - 256
        single_motor_status := data.getD 26 0
        reserved := (data.drop 27).take 4
        checksum := data.getD 31 0 }

/-! ## Frame resynchronizer / decoder loop (`FlyWheel._process_response`) -/

/-- `buffer.find(bytes([0xEB, 0x90]))`: index of the first occurrence of
the 2-byte marker, `none` for Python's `-1`. -/
def findMarker : List ℕ → Option ℕ
  | 0xEB :: 0x90 :: _ => some 0
  | _ :: rest => (findMarker rest).map (· + 1)
  | [] => none

/-- One pass of the buffer-maintenance portion of
`FlyWheel._process_response` (the dequeued `chunk` through frame
extraction): returns the new buffer and the extracted candidate frame,
if any. -/
def extractFrame (buffer chunk : List ℕ) : List ℕ × Option (List ℕ) :=
  if chunk = [] then (buffer, none)
  else
    -- a chunk starting with 0xEB clears the buffer before being appended
    let buffer1 := if chunk.headD 0 = 0xEB then chunk else buffer ++ chunk
    match findMarker buffer1 with
    | none => (buffer1, none)
    | some frame_start =>
      let buffer2 := buffer1.drop frame_start
      if buffer2.length < 3 then (buffer2, none)
      else
        let expected_length := if buffer2.getD 2 0 = 0xDD then 32 else 8
        if buffer2.length < expected_length then (buffer2, none)
        else (buffer2.drop expected_length, some (buffer2.take expected_length))

/-- `sum(frame[2:-1]) & 0xFF`: the recomputed telemetry checksum. -/
def telemetryChecksum (frame : List ℕ) : ℕ :=
  ((frame.drop 2).dropLast).sum % 256

/-- Append to the `deque(maxlen=max_telemetry_size)` telemetry store,
evicting from the front when over capacity. -/
def pushTelemetry (maxlen : ℕ) (tele : List TelemetryData) (t : TelemetryData) :
    List TelemetryData :=
  let l := tele ++ [t]
  if maxlen < l.length then l.drop (l.length - maxlen) else l

/-- The validation/dispatch portion of `FlyWheel._process_response`
applied to one extracted frame (whose length is the pass's
`expected_length` by construction): checksum check, then — for a 32-byte
frame — decode, invoke the callback with `(current, previous)` if one is
registered, and append to the store. Returns the new store, the callback
invocations of this pass, and the records decoded this pass. -/
def dispatchFrame (hasCb : Bool) (maxlen : ℕ) (tele : List TelemetryData)
    (frame : List ℕ) :
    List TelemetryData × List (TelemetryData × TelemetryData) × List TelemetryData :=
  if telemetryChecksum frame ≠ frame.getLastD 0 then (tele, [], [])
  else if frame.length = 32 then
    match _process_data frame with
    | some t =>
      -- last_telemetry = self.telemetry[-1] if self.telemetry else telemetry
      let prev := tele.getLastD t
      (pushTelemetry maxlen tele t, if hasCb then [(t, prev)] else [], [t])
    | none => (tele, [], [])        -- decode error: logged, state unchanged
  else (tele, [], [])               -- 8-byte response: only logged

/-- Decoder-loop state: the rolling buffer, the telemetry ring store and
the accumulated callback invocations. -/
structure DecState where
  buffer : List ℕ
  telemetry : List TelemetryData
  events : List (TelemetryData × TelemetryData)
deriving DecidableEq, Repr

/-- One full iteration of the `_process_response` loop body for one
dequeued chunk; also returns the records decoded during the pass. -/
def processPass (hasCb : Bool) (maxlen : ℕ) (st : DecState) (chunk : List ℕ) :
    DecState × List TelemetryData :=
  match extractFrame st.buffer chunk with
  | (buf, none) => ({ st with buffer := buf }, [])
  | (buf, some frame) =>
    let (tele, evs, recs) := dispatchFrame hasCb maxlen st.telemetry frame
    (⟨buf, tele, st.events ++ evs⟩, recs)

/-- Run the decoder loop over a queue of chunks (one pass per chunk),
collecting every record decoded along the way. -/
def processChunks (hasCb : Bool) (maxlen : ℕ) (st : DecState) :
    List (List ℕ) → DecState × List TelemetryData
  | [] => (st, [])
  | c :: cs =>
    let p := processPass hasCb maxlen st c
    let q := processChunks hasCb maxlen p.1 cs
    (q.1, p.2 ++ q.2)

/-- The decoder state at thread start: empty buffer, empty store. -/
def initDecState : DecState := ⟨[], [], []⟩

/-- A well-formed 32-byte telemetry frame: correct 3-byte header, valid
checksum, and decodable (all float fields finite). -/
def validTelemetryFrame (F : List ℕ) : Prop :=
  F.length = 32 ∧ F.take 3 = [0xEB, 0x90, 0xDD] ∧
  telemetryChecksum F = F.getLastD 0 ∧ (_process_data F).isSome

/-- A well-formed 8-byte acknowledgment frame: marker, a discriminator
byte other than `0xDD`, valid checksum. -/
def validAckFrame (F : List ℕ) : Prop :=
  F.length = 8 ∧ F.take 2 = [0xEB, 0x90] ∧ F.getD 2 0 ≠ 0xDD ∧
  telemetryChecksum F = F.getLastD 0

instance (F : List ℕ) : Decidable (validTelemetryFrame F) := by
  unfold validTelemetryFrame; exact inferInstance

instance (F : List ℕ) : Decidable (validAckFrame F) := by
  unfold validAckFrame; exact inferInstance

/-! ## Concrete frames used in scenarios -/

/-- The all-zero-payload telemetry frame with trailing checksum byte
`0x00`, as described in the spec's concrete scenario. -/
def zeroFrame00 : List ℕ := [0xEB, 0x90, 0xDD] ++ List.replicate 28 0 ++ [0x00]

/-- The all-zero-payload telemetry frame with the checksum byte that the
code actually computes (`0xDD`, the discriminator byte being inside the
checksum range `frame[2:-1]`). -/
def zeroFrameDD : List ℕ := [0xEB, 0x90, 0xDD] ++ List.replicate 28 0 ++ [0xDD]

/-- The record `zeroFrameDD` decodes to. -/
def zeroRecord : TelemetryData :=
  { header := [0xEB, 0x90, 0xDD]
    last_command := 0
    control_target := 0
    flywheel_speed_feedback := 0
    flywheel_current_feedback := 0
    acceleration_feedback := 0
    command_response_count := 0
    telemetry_wheel_command_count := 0
    error_command_count := 0
    motherboard_current := 0
    temperature := 0
    single_motor_status := 0
    reserved := [0, 0, 0, 0]
    checksum := 0xDD }

/-- A sample driver state: disconnected, port closed, empty queue of
capacity 1000 (the constructor's default). -/
def sampleState : DriverState :=
  { is_connected := false, serial_open := false, cmd_queue := [], queue_maxsize := 1000 }

/-- The decoder pass exactly as the spec's step list words it (C3): the
buffer is cleared when the dequeued chunk's first byte is `0xEB`, the
chunk appended, bytes before the first `EB 90` marker dropped; with at
least 3 bytes buffered the byte at offset 2 selects the expected length
(32 if `0xDD`, else 8); if at least that many bytes are buffered,
exactly `expected_length` bytes are removed as the candidate frame with
the remainder retained; otherwise the pass waits. Written from the
spec's sentences, to be compared against `extractFrame` (from the
source). -/
def extractFrameSpec (buffer chunk : List ℕ) : List ℕ × Option (List ℕ) :=
  let appended := (if chunk.headD 0 = 0xEB then [] else buffer) ++ chunk
  match findMarker appended with
  | none => (appended, none)
  | some k =>
    let synced := appended.drop k
    if 3 ≤ synced.length then
      let expected_length := if synced.getD 2 0 = 0xDD then 32 else 8
      if expected_length ≤ synced.length then
        (synced.drop expected_length, some (synced.take expected_length))
      else (synced, none)
    else (synced, none)

/-! ## Decoder-pass lemmas -/

theorem findMarker_marker_head (l : List ℕ) : findMarker (0xEB :: 0x90 :: l) = some 0 := rfl

/-- A chunk that begins with a well-formed frame (any trailing bytes
allowed) makes the pass clear the buffer, lock onto the marker at offset
0, and extract exactly the frame, leaving the trailing bytes buffered. -/
theorem extractFrame_frame_append (F rest buffer : List ℕ) (expected : ℕ)
    (hlen : F.length = expected)
    (hhd : ∃ c, F.take 3 = [0xEB, 0x90, c] ∧
      expected = if c = 0xDD then 32 else 8) :
    extractFrame buffer (F ++ rest) = (rest, some F) := by
  obtain ⟨c, htake, hexp⟩ := hhd
  rcases F with _ | ⟨a, F1⟩
  · simp at htake
  rcases F1 with _ | ⟨b, F2⟩
  · simp [List.take] at htake
  rcases F2 with _ | ⟨d, F'⟩
  · simp [List.take] at htake
  obtain ⟨rfl, rfl, hc⟩ : a = 0xEB ∧ b = 0x90 ∧ c = d := by
    have := htake
    simp [List.take] at this
    exact ⟨this.1, this.2.1, this.2.2.symm⟩
  subst hc
  have hF : (0xEB :: 0x90 :: c :: F').length = expected := hlen
  simp only [List.cons_append]
  unfold extractFrame
  rw [if_neg (List.cons_ne_nil _ _)]
  simp only [List.headD_cons, reduceIte, findMarker_marker_head, List.drop_zero]
  have h3 : ¬((0xEB :: 0x90 :: c :: (F' ++ rest)).length < 3) := by
    simp
  rw [if_neg h3]
  have hgd : (0xEB :: 0x90 :: c :: (F' ++ rest)).getD 2 0 = c := rfl
  rw [hgd, ← hexp]
  have hge : ¬((0xEB :: 0x90 :: c :: (F' ++ rest)).length < expected) := by
    simp only [List.length_cons, List.length_append]
    simp only [List.length_cons] at hF
    omega
  rw [if_neg hge]
  have htk0 : ((0xEB :: 0x90 :: c :: F') ++ rest).take expected
      = 0xEB :: 0x90 :: c :: F' := List.take_left' hF
  have hdr0 : ((0xEB :: 0x90 :: c :: F') ++ rest).drop expected = rest :=
    List.drop_left' hF
  have htk : (0xEB :: 0x90 :: c :: (F' ++ rest)).take expected
      = 0xEB :: 0x90 :: c :: F' := by simpa using htk0
  have hdr : (0xEB :: 0x90 :: c :: (F' ++ rest)).drop expected = rest := by
    simpa using hdr0
  rw [htk, hdr]

/-- Specialisation to a valid 32-byte telemetry frame. -/
theorem extractFrame_telemetry (F rest buffer : List ℕ)
    (hF : validTelemetryFrame F) :
    extractFrame buffer (F ++ rest) = (rest, some F) :=
  extractFrame_frame_append F rest buffer 32 hF.1 ⟨0xDD, hF.2.1, by simp⟩

/-- Specialisation to a valid 8-byte acknowledgment frame. -/
theorem extractFrame_ack (F rest buffer : List ℕ)
    (hF : validAckFrame F) :
    extractFrame buffer (F ++ rest) = (rest, some F) := by
  obtain ⟨h8, h2, hd, _⟩ := hF
  refine extractFrame_frame_append F rest buffer 8 h8 ⟨F.getD 2 0, ?_, by rw [if_neg hd]⟩
  rcases F with _ | ⟨a, _ | ⟨b, _ | ⟨c, F'⟩⟩⟩
  · simp at h8
  · simp at h8
  · simp at h8
  · obtain ⟨rfl, rfl⟩ : a = 0xEB ∧ b = 0x90 := by
      have := h2
      simp [List.take] at this
      exact this
    rfl

/-- Validation/dispatch of a checksum-valid decodable 32-byte frame:
decode, emit the callback pair if a callback is registered, append. -/
theorem dispatchFrame_telemetry (hasCb : Bool) (maxlen : ℕ) (tele : List TelemetryData)
    (F : List ℕ) (t : TelemetryData)
    (hcs : telemetryChecksum F = F.getLastD 0) (h32 : F.length = 32)
    (ht : _process_data F = some t) :
    dispatchFrame hasCb maxlen tele F =
      (pushTelemetry maxlen tele t,
        if hasCb then [(t, tele.getLastD t)] else [], [t]) := by
  unfold dispatchFrame
  rw [if_neg (not_not_intro hcs), if_pos h32, ht]

/-- Validation/dispatch of an 8-byte frame: nothing is decoded or stored
(whether or not the checksum matches). -/
theorem dispatchFrame_ack (hasCb : Bool) (maxlen : ℕ) (tele : List TelemetryData)
    (F : List ℕ) (h8 : F.length = 8) :
    dispatchFrame hasCb maxlen tele F = (tele, [], []) := by
  unfold dispatchFrame
  by_cases h : telemetryChecksum F ≠ F.getLastD 0
  · rw [if_pos h]
  · rw [if_neg h, if_neg (by simp [h8])]

/-! ## Claims -/

/-- C2 (counterexample): the 32-byte all-zero-payload frame with header
`EB 90 DD` and trailing checksum byte `0x00` does NOT pass the checksum
validation — the recomputed checksum over `frame[2:-1]` includes the
`0xDD` discriminator byte, so it equals `0xDD`, not `0x00` — and the
decoder produces no record from it. -/
theorem c2_zero_frame_checksum00_rejected :
    telemetryChecksum zeroFrame00 ≠ zeroFrame00.getLastD 0 ∧
    telemetryChecksum zeroFrame00 = 0xDD ∧
    (processChunks true 1000 initDecState [zeroFrame00]).2 = [] := by decide

/-- C2 (amended): the all-zero-payload frame passes checksum validation
with trailing byte `0xDD`; it then decodes to a `TelemetryData` whose
numeric fields are all `0`/`0.0` except the verified `checksum` field,
which holds `0xDD`. -/
theorem c2_zero_frame_decodes_to_zero_record :
    telemetryChecksum zeroFrameDD = zeroFrameDD.getLastD 0 ∧
    _process_data zeroFrameDD = some zeroRecord ∧
    (processChunks true 1000 initDecState [zeroFrameDD]).2 = [zeroRecord] ∧
    zeroRecord.control_target = 0 ∧ zeroRecord.flywheel_speed_feedback = 0 ∧
    zeroRecord.flywheel_current_feedback = 0 ∧ zeroRecord.acceleration_feedback = 0 ∧
    zeroRecord.motherboard_current = 0 ∧ zeroRecord.temperature = 0 ∧
    zeroRecord.checksum = 0xDD := by decide

/-- C5: each builder emits `EB 90 <code> <4-byte big-endian IEEE-754
payload> <(code + sum payload) mod 256>`, always 8 bytes long; speed
`100.0` encodes to `EB 90 D2 42 C8 00 00 DC` (with
`0xDC = (0xD2 + 0x42 + 0xC8) & 0xFF`), torque `30.0` to
`EB 90 D3 41 F0 00 00 04` and torque `-30.0` to `EB 90 D3 C1 F0 00 00 84`. -/
theorem c5_command_encoding :
    (∀ v : ℚ, _build_speed_command v =
        [0xEB, 0x90, 0xD2] ++ pack_f32 v ++ [(0xD2 + (pack_f32 v).sum) % 256] ∧
      (_build_speed_command v).length = 8) ∧
    (∀ v : ℚ, _build_torque_command v =
        [0xEB, 0x90, 0xD3] ++ pack_f32 v ++ [(0xD3 + (pack_f32 v).sum) % 256] ∧
      (_build_torque_command v).length = 8) ∧
    (∀ v : ℚ, _build_current_command v =
        [0xEB, 0x90, 0xD1] ++ pack_f32 v ++ [(0xD1 + (pack_f32 v).sum) % 256] ∧
      (_build_current_command v).length = 8) ∧
    _build_speed_command 100 = [0xEB, 0x90, 0xD2, 0x42, 0xC8, 0x00, 0x00, 0xDC] ∧
    (0xD2 + (0x42 + 0xC8 + 0x00 + 0x00)) % 256 = 0xDC ∧
    _build_torque_command 30 = [0xEB, 0x90, 0xD3, 0x41, 0xF0, 0x00, 0x00, 0x04] ∧
    _build_torque_command (-30) = [0xEB, 0x90, 0xD3, 0xC1, 0xF0, 0x00, 0x00, 0x84] := by
  refine ⟨fun v => ⟨rfl, rfl⟩, fun v => ⟨rfl, rfl⟩, fun v => ⟨rfl, rfl⟩, ?_, ?_, ?_, ?_⟩ <;>
    decide

/-- C6: every out-of-range value makes `set_speed`/`set_torque`/
`set_current` fail with the range error (`ValueError`, the spec's
`OutOfRange`) with the driver state — command queue included — returned
unchanged; every in-range value never produces that error. -/
theorem c6_range_validation :
    (∀ (v : ℚ) (st : DriverState), ¬(-6050 ≤ v ∧ v ≤ 6050) →
      set_speed v st = (.error .valueError, st)) ∧
    (∀ (v : ℚ) (st : DriverState), ¬(-50 ≤ v ∧ v ≤ 50) →
      set_torque v st = (.error .valueError, st)) ∧
    (∀ (v : ℚ) (st : DriverState), ¬(-1500 ≤ v ∧ v ≤ 1500) →
      set_current v st = (.error .valueError, st)) ∧
    (∀ (v : ℚ) (st : DriverState), -6050 ≤ v → v ≤ 6050 →
      (set_speed v st).1 ≠ .error .valueError) ∧
    (∀ (v : ℚ) (st : DriverState), -50 ≤ v → v ≤ 50 →
      (set_torque v st).1 ≠ .error .valueError) ∧
    (∀ (v : ℚ) (st : DriverState), -1500 ≤ v → v ≤ 1500 →
      (set_current v st).1 ≠ .error .valueError) := by
  refine ⟨fun v st h => ?_, fun v st h => ?_, fun v st h => ?_,
    fun v st h1 h2 => ?_, fun v st h1 h2 => ?_, fun v st h1 h2 => ?_⟩
  · simp [set_speed, h]
  · simp [set_torque, h]
  · simp [set_current, h]
  · simp [set_speed, And.intro h1 h2]
  · simp [set_torque, And.intro h1 h2]
  · simp [set_current, And.intro h1 h2]

/-- C6 witness: speed 7000 is rejected with the state untouched; speed
100 does not raise the range error. -/
theorem c6_range_validation_witness :
    set_speed 7000 sampleState = (.error .valueError, sampleState) ∧
    (set_speed 100 sampleState).1 ≠ .error .valueError :=
  ⟨c6_range_validation.1 7000 sampleState (by decide),
   c6_range_validation.2.2.2.1 100 sampleState (by decide) (by decide)⟩

/-- C7 (code bug): when the transport open attempt fails (`openOk =
false`) on a disconnected driver, `connect` does NOT surface a
`ConnectionError` — contrary to its own docstring it catches the
exception, logs, and returns `False` — though the driver does remain
disconnected; when already connected it is an idempotent no-op that only
warns; in no case does `connect` raise. -/
theorem c7_connect_returns_false_on_failure :
    (∀ st : DriverState, st.is_connected = false → st.serial_open = false →
      connect false st = (.ok false, { st with is_connected := false })) ∧
    (∀ (openOk : Bool) (st : DriverState), st.is_connected = true →
      connect openOk st = (.ok true, st)) ∧
    (∀ (openOk : Bool) (st : DriverState),
      (connect openOk st).1 ≠ .error .connectionError) := by
  refine ⟨fun st h1 h2 => ?_, fun ok st h => ?_, fun ok st => ?_⟩
  · simp [connect, h1, h2]
  · simp [connect, h]
  · unfold connect
    split_ifs <;> simp

/-- C7 witness: from the sample disconnected state with a failing open,
`connect` returns `False` (no exception) and stays disconnected; from a
connected state it returns `True` unchanged. -/
theorem c7_connect_returns_false_on_failure_witness :
    connect false sampleState = (.ok false, { sampleState with is_connected := false }) ∧
    connect true { sampleState with is_connected := true } =
      (.ok true, { sampleState with is_connected := true }) :=
  ⟨c7_connect_returns_false_on_failure.1 sampleState rfl rfl,
   c7_connect_returns_false_on_failure.2.1 true { sampleState with is_connected := true } rfl⟩

/-- C9: `poll_status` raises `ConnectionError` on a disconnected driver
without touching the queue, while `set_speed`/`set_torque`/`set_current`
perform no connection check: an in-range value is built and enqueued
even while disconnected (whenever the queue has room). -/
theorem c9_poll_checks_connection_setters_do_not :
    (∀ st : DriverState, st.is_connected = false →
      poll_status st = (.error .connectionError, st)) ∧
    (∀ (v : ℚ) (st : DriverState), st.is_connected = false →
      -6050 ≤ v → v ≤ 6050 → st.cmd_queue.length < st.queue_maxsize →
      set_speed v st =
        (.ok true, { st with cmd_queue := st.cmd_queue ++ [_build_speed_command v] })) ∧
    (∀ (v : ℚ) (st : DriverState), st.is_connected = false →
      -50 ≤ v → v ≤ 50 → st.cmd_queue.length < st.queue_maxsize →
      set_torque v st =
        (.ok true, { st with cmd_queue := st.cmd_queue ++ [_build_torque_command v] })) ∧
    (∀ (v : ℚ) (st : DriverState), st.is_connected = false →
      -1500 ≤ v → v ≤ 1500 → st.cmd_queue.length < st.queue_maxsize →
      set_current v st =
        (.ok true, { st with cmd_queue := st.cmd_queue ++ [_build_current_command v] })) := by
  refine ⟨fun st h => ?_, fun v st hc h1 h2 hq => ?_,
    fun v st hc h1 h2 hq => ?_, fun v st hc h1 h2 hq => ?_⟩
  · simp [poll_status, h]
  all_goals
    simp [set_speed, set_torque, set_current, _send_command, And.intro h1 h2,
      Nat.not_le_of_lt hq]

/-- A pass whose chunk is a valid telemetry frame followed by arbitrary
trailing bytes: one record decoded, the trailing bytes retained whole. -/
theorem processPass_telemetry (F rest : List ℕ) (t : TelemetryData)
    (hF : validTelemetryFrame F) (ht : _process_data F = some t)
    (hasCb : Bool) (maxlen : ℕ) (st : DecState) :
    processPass hasCb maxlen st (F ++ rest) =
      (⟨rest, pushTelemetry maxlen st.telemetry t,
        st.events ++ (if hasCb then [(t, st.telemetry.getLastD t)] else [])⟩, [t]) := by
  unfold processPass
  rw [extractFrame_telemetry F rest st.buffer hF]
  show (match dispatchFrame hasCb maxlen st.telemetry F with
    | (tele, evs, recs) =>
      (({ buffer := rest, telemetry := tele, events := st.events ++ evs } : DecState),
        recs)) = _
  rw [dispatchFrame_telemetry hasCb maxlen st.telemetry F t hF.2.2.1 hF.1 ht]

/-- C10: a decoder pass whose dequeued chunk is a valid telemetry frame
`F` followed by any further bytes `rest` (for instance a complete 8-byte
acknowledgment delivered in the same read) decodes exactly the one
record of `F` and leaves `rest` in the buffer byte-for-byte unexamined;
a later pass over `rest` happens only when the loop dequeues the next
chunk, since each loop iteration starts by dequeueing. -/
theorem c10_at_most_one_frame_per_pass (F rest : List ℕ) (t : TelemetryData)
    (hF : validTelemetryFrame F) (ht : _process_data F = some t)
    (hasCb : Bool) (maxlen : ℕ) (st : DecState) :
    processPass hasCb maxlen st (F ++ rest) =
      (⟨rest, pushTelemetry maxlen st.telemetry t,
        st.events ++ (if hasCb then [(t, st.telemetry.getLastD t)] else [])⟩, [t]) :=
  processPass_telemetry F rest t hF ht hasCb maxlen st

/-- C10 witness: a 40-byte chunk holding the zero telemetry frame
followed by a complete 8-byte acknowledgment yields one record, with the
acknowledgment left whole in the buffer. -/
theorem c10_at_most_one_frame_per_pass_witness :
    processPass true 1000 initDecState
        (zeroFrameDD ++ [0xEB, 0x90, 0xD2, 0, 0, 0, 0, 0xD2]) =
      (⟨[0xEB, 0x90, 0xD2, 0, 0, 0, 0, 0xD2], [zeroRecord],
        [(zeroRecord, zeroRecord)]⟩, [zeroRecord]) :=
  (c10_at_most_one_frame_per_pass zeroFrameDD [0xEB, 0x90, 0xD2, 0, 0, 0, 0, 0xD2]
      zeroRecord (by decide) (by decide) true 1000 initDecState).trans (by decide)

/-- C8: when the decoder decodes a checksum-valid 32-byte frame into a
record `t`, the callback — if one is registered — is invoked with
`(t, previous)` where `previous` is the most recently retained record
(or `t` itself when the store is empty), and `t` is then appended to the
bounded store, evicting the oldest record when the store is at its
(positive) capacity. -/
theorem c8_callback_pairing_and_retention (F : List ℕ) (t : TelemetryData)
    (hF : validTelemetryFrame F) (ht : _process_data F = some t)
    (maxlen : ℕ) (st : DecState) :
    (processPass true maxlen st F =
      (⟨[], pushTelemetry maxlen st.telemetry t,
        st.events ++ [(t, st.telemetry.getLastD t)]⟩, [t])) ∧
    (processPass false maxlen st F =
      (⟨[], pushTelemetry maxlen st.telemetry t, st.events⟩, [t])) ∧
    (st.telemetry = [] → st.telemetry.getLastD t = t) ∧
    (∀ p, st.telemetry.getLast? = some p → st.telemetry.getLastD t = p) ∧
    (st.telemetry.length < maxlen →
      pushTelemetry maxlen st.telemetry t = st.telemetry ++ [t]) ∧
    (st.telemetry.length = maxlen → 0 < maxlen →
      pushTelemetry maxlen st.telemetry t = st.telemetry.drop 1 ++ [t]) := by
  have hone : ∀ hasCb, processPass hasCb maxlen st F =
      (⟨[], pushTelemetry maxlen st.telemetry t,
        st.events ++ (if hasCb then [(t, st.telemetry.getLastD t)] else [])⟩, [t]) := by
    intro hasCb
    have := processPass_telemetry F [] t hF ht hasCb maxlen st
    simpa using this
  refine ⟨by simpa using hone true, by simpa using hone false, ?_, ?_, ?_, ?_⟩
  · intro h; rw [h]; rfl
  · intro p hp
    rw [List.getLastD_eq_getLast?, hp]; rfl
  · intro h
    unfold pushTelemetry
    rw [if_neg (by simp; omega)]
  · intro h hpos
    unfold pushTelemetry
    rw [if_pos (by simp [h])]
    have h1 : (1:ℕ) ≤ st.telemetry.length := by omega
    simp [h, List.drop_append_of_le_length h1]

/-- C8 witness: decoding the zero frame twice from an empty store pairs
the first record with itself and the second with the first. -/
theorem c8_callback_pairing_and_retention_witness :
    processPass true 1000 initDecState zeroFrameDD =
      (⟨[], [zeroRecord], [(zeroRecord, zeroRecord)]⟩, [zeroRecord]) :=
  ((c8_callback_pairing_and_retention zeroFrameDD zeroRecord (by decide) (by decide)
      1000 initDecState).1).trans (by decide)

/-- C3: for every (nonempty, as the loop guarantees — `_process_response`
skips empty chunks and `_response_loop` never queues one) dequeued chunk
and every buffer, the source's pass coincides with the spec's step-list
description of it. -/
theorem c3_pass_refines_description (buffer chunk : List ℕ) (h : chunk ≠ []) :
    extractFrame buffer chunk = extractFrameSpec buffer chunk := by
  unfold extractFrame extractFrameSpec
  rw [if_neg h]
  have hb : (if chunk.headD 0 = 0xEB then chunk else buffer ++ chunk)
      = (if chunk.headD 0 = 0xEB then [] else buffer) ++ chunk := by
    split_ifs <;> simp
  rw [hb]
  rcases hfm : findMarker ((if chunk.headD 0 = 0xEB then [] else buffer) ++ chunk)
    with _ | k
  · simp only [hfm]
  · simp only [hfm]
    set L := List.drop k ((if chunk.headD 0 = 0xEB then [] else buffer) ++ chunk) with hL
    by_cases h3 : L.length < 3
    · rw [if_pos h3, if_neg (by omega)]
    · rw [if_neg h3, if_pos (by omega : 3 ≤ L.length)]
      by_cases hd : L.getD 2 0 = 0xDD
      · simp only [if_pos hd]
        by_cases he : L.length < 32
        · rw [if_pos he, if_neg (by omega)]
        · rw [if_neg he, if_pos (by omega)]
      · simp only [if_neg hd]
        by_cases he : L.length < 8
        · rw [if_pos he, if_neg (by omega)]
        · rw [if_neg he, if_pos (by omega)]

/-- C3 witness: a concrete pass — stale bytes before the marker in the
buffer, a chunk not starting with `0xEB` completing a 32-byte telemetry
frame — where both descriptions extract the frame and retain the
remainder. -/
theorem c3_pass_refines_description_witness :
    extractFrame ([0x01, 0x02] ++ List.take 20 zeroFrameDD)
        (List.drop 20 zeroFrameDD ++ [0x07]) =
      extractFrameSpec ([0x01, 0x02] ++ List.take 20 zeroFrameDD)
        (List.drop 20 zeroFrameDD ++ [0x07]) ∧
    extractFrame ([0x01, 0x02] ++ List.take 20 zeroFrameDD)
        (List.drop 20 zeroFrameDD ++ [0x07]) = ([0x07], some zeroFrameDD) :=
  ⟨c3_pass_refines_description ([0x01, 0x02] ++ List.take 20 zeroFrameDD)
      (List.drop 20 zeroFrameDD ++ [0x07]) (by decide), by decide⟩

/-- C1 (counterexample): chunk-boundary independence fails. The valid
stream `zeroFrameDD ++ zeroFrameDD` fed as one chunk decodes a single
record — the pass extracts at most one frame per dequeued chunk, so the
second frame stays buffered forever — whereas fed as two chunks it
decodes both records. -/
theorem c1_chunking_changes_output :
    (processChunks true 1000 initDecState [zeroFrameDD ++ zeroFrameDD]).2 =
      [zeroRecord] ∧
    (processChunks true 1000 initDecState [zeroFrameDD, zeroFrameDD]).2 =
      [zeroRecord, zeroRecord] ∧
    (processChunks true 1000 initDecState [zeroFrameDD ++ zeroFrameDD]).2 ≠
      (processChunks true 1000 initDecState [zeroFrameDD, zeroFrameDD]).2 := by
  decide

/-- C1 (amended): when the stream is delivered one complete valid frame
per chunk, the decoder emits exactly the records of the 32-byte
telemetry frames of the sequence, in order, from any starting state; for
other chunkings the output can differ (a chunk holding two frames yields
only the first that pass, and a continuation chunk starting with `0xEB`
discards the buffered partial frame). -/
theorem c1_frame_per_chunk_decodes_all (frames : List (List ℕ)) (hasCb : Bool)
    (maxlen : ℕ) (st : DecState)
    (hv : ∀ F ∈ frames, validTelemetryFrame F ∨ validAckFrame F) :
    (processChunks hasCb maxlen st frames).2 =
      frames.filterMap (fun F => if F.length = 32 then _process_data F else none) := by
  induction frames generalizing st with
  | nil => rfl
  | cons F fs ih =>
    have hF := hv F (List.mem_cons_self _ _)
    have hfs : ∀ G ∈ fs, validTelemetryFrame G ∨ validAckFrame G :=
      fun G hG => hv G (List.mem_cons_of_mem _ hG)
    rcases hF with ht | ha
    · obtain ⟨t, htt⟩ := Option.isSome_iff_exists.mp ht.2.2.2
      have hpass := processPass_telemetry F [] t ht htt hasCb maxlen st
      simp only [List.append_nil] at hpass
      simp only [processChunks, hpass]
      rw [ih _ hfs]
      simp [List.filterMap_cons, ht.1, htt]
    · have hex : extractFrame st.buffer F = ([], some F) := by
        have := extractFrame_ack F [] st.buffer ha
        simpa using this
      simp only [processChunks, processPass, hex]
      rw [dispatchFrame_ack hasCb maxlen st.telemetry F ha.1]
      rw [ih _ hfs]
      simp [List.filterMap_cons, ha.1]

/-- C1 witness (for the amended claim): frame-per-chunk delivery of two
telemetry frames and one acknowledgment decodes exactly the two records. -/
theorem c1_frame_per_chunk_decodes_all_witness :
    (processChunks true 1000 initDecState
        [zeroFrameDD, [0xEB, 0x90, 0xD2, 0, 0, 0, 0, 0xD2], zeroFrameDD]).2 =
      [zeroRecord, zeroRecord] :=
  (c1_frame_per_chunk_decodes_all
      [zeroFrameDD, [0xEB, 0x90, 0xD2, 0, 0, 0, 0, 0xD2], zeroFrameDD]
      true 1000 initDecState (by decide)).trans (by decide)

/-- Flipping a bit always changes a natural number. -/
theorem xor_pow_ne (x b : ℕ) : x ^^^ 2 ^ b ≠ x := by
  intro h
  have h0 : x ^^^ 2 ^ b = x ^^^ 0 := by simpa using h
  have h2 : (2 : ℕ) ^ b = 0 := Nat.xor_right_inj.mp h0
  exact (pow_pos (by norm_num : (0 : ℕ) < 2) b).ne' h2

/-- Xor of two bytes is a byte. -/
theorem xor_lt_256 (x y : ℕ) (hx : x < 256) (hy : y < 256) : x ^^^ y < 256 := by
  have hx8 : x < 2 ^ 8 := by simpa using hx
  have hy8 : y < 2 ^ 8 := by simpa using hy
  have : x ^^^ y < 2 ^ 8 := Nat.bitwise_lt hx8 hy8
  simpa using this

/-- The telemetry checksum and trailing byte of a frame decomposed
around one checksum-covered byte `x` (at position `pre.length ≥ 2`). -/
theorem telemetryChecksum_decomp (pre mid : List ℕ) (x cs : ℕ)
    (hpre : 2 ≤ pre.length) :
    telemetryChecksum (pre ++ x :: mid ++ [cs]) =
      ((pre.drop 2).sum + (x + mid.sum)) % 256 ∧
    (pre ++ x :: mid ++ [cs]).getLastD 0 = cs := by
  have hassoc : pre ++ x :: mid ++ [cs] = (pre ++ x :: mid) ++ [cs] := by simp
  constructor
  · unfold telemetryChecksum
    have h2 : ((pre ++ x :: mid) ++ [cs]).drop 2 = (pre ++ x :: mid).drop 2 ++ [cs] :=
      List.drop_append_of_le_length (by simp; omega)
    rw [hassoc, h2, List.dropLast_concat, List.drop_append_of_le_length hpre]
    simp
  · rw [hassoc]
    exact List.getLastD_concat _ _ _

/-- C4 (counterexample): the single-bit-flip detection fails for the two
marker bytes, which lie outside the checksum range `frame[2:-1]`: the
accepted zero frame with bit 0 of byte 0 flipped (`EB → EA`) is still
accepted by the checksum validation. -/
theorem c4_marker_bit_flip_not_detected :
    telemetryChecksum zeroFrameDD = zeroFrameDD.getLastD 0 ∧
    (zeroFrameDD.set 0 (0xEB ^^^ 2 ^ 0)).length = 32 ∧
    zeroFrameDD.set 0 (0xEB ^^^ 2 ^ 0) ≠ zeroFrameDD ∧
    telemetryChecksum (zeroFrameDD.set 0 (0xEB ^^^ 2 ^ 0)) =
      (zeroFrameDD.set 0 (0xEB ^^^ 2 ^ 0)).getLastD 0 := by decide

/-- C4 (amended): the validation recomputes the sum of bytes 2–30 modulo
256 and compares it to byte 31; for an accepted 32-byte frame, flipping
any single bit of bytes 2 through 31 (any byte the checksum covers, or
the checksum byte itself — but not the two marker bytes) yields a frame
the validation rejects. The flipped byte is written positionally: it
sits at index `pre.length`. -/
theorem c4_single_bit_flip_in_checked_bytes_detected :
    (∀ (pre mid : List ℕ) (x cs b : ℕ),
      2 ≤ pre.length → (pre ++ x :: mid ++ [cs]).length = 32 →
      x < 256 → cs < 256 → b < 8 →
      telemetryChecksum (pre ++ x :: mid ++ [cs]) =
        (pre ++ x :: mid ++ [cs]).getLastD 0 →
      telemetryChecksum (pre ++ (x ^^^ 2 ^ b) :: mid ++ [cs]) ≠
        (pre ++ (x ^^^ 2 ^ b) :: mid ++ [cs]).getLastD 0) ∧
    (∀ (pre : List ℕ) (cs b : ℕ),
      pre.length = 31 → b < 8 →
      telemetryChecksum (pre ++ [cs]) = (pre ++ [cs]).getLastD 0 →
      telemetryChecksum (pre ++ [cs ^^^ 2 ^ b]) ≠
        (pre ++ [cs ^^^ 2 ^ b]).getLastD 0) := by
  constructor
  · intro pre mid x cs b hpre hlen hx hcs hb hacc
    obtain ⟨e1, e2⟩ := telemetryChecksum_decomp pre mid x cs hpre
    obtain ⟨e1x, e2x⟩ := telemetryChecksum_decomp pre mid (x ^^^ 2 ^ b) cs hpre
    rw [e1, e2] at hacc
    rw [e1x, e2x]
    have hne := xor_pow_ne x b
    have hlt : x ^^^ 2 ^ b < 256 :=
      xor_lt_256 x (2 ^ b) hx (by
        calc (2:ℕ) ^ b < 2 ^ 8 := Nat.pow_lt_pow_right (by norm_num) hb
        _ = 256 := by norm_num)
    have key : ∀ y : ℕ, y ≠ x → y < 256 →
        ((pre.drop 2).sum + (y + mid.sum)) % 256 ≠ cs := by
      intro y hyne hylt
      omega
    exact key _ hne hlt
  · intro pre cs b hlen hb hacc
    have hd : ∀ z : ℕ, telemetryChecksum (pre ++ [z]) = (pre.drop 2).sum % 256 := by
      intro z
      unfold telemetryChecksum
      rw [List.drop_append_of_le_length (by omega), List.dropLast_concat]
    rw [hd, List.getLastD_concat] at hacc
    rw [hd, List.getLastD_concat, hacc]
    exact (xor_pow_ne cs b).symm

/-- C4 witness: flipping bit 0 of byte 2 (the first checksum-covered
byte) of the accepted zero frame makes validation reject it, as does
flipping bit 0 of the checksum byte itself. -/
theorem c4_single_bit_flip_in_checked_bytes_detected_witness :
    telemetryChecksum ([0xEB, 0x90] ++ (0xDD ^^^ 2 ^ 0) :: List.replicate 28 0 ++ [0xDD]) ≠
      ([0xEB, 0x90] ++ (0xDD ^^^ 2 ^ 0) :: List.replicate 28 0 ++ [0xDD]).getLastD 0 ∧
    telemetryChecksum (([0xEB, 0x90, 0xDD] ++ List.replicate 28 0) ++ [0xDD ^^^ 2 ^ 0]) ≠
      (([0xEB, 0x90, 0xDD] ++ List.replicate 28 0) ++ [0xDD ^^^ 2 ^ 0]).getLastD 0 :=
  ⟨c4_single_bit_flip_in_checked_bytes_detected.1 [0xEB, 0x90] (List.replicate 28 0)
      0xDD 0xDD 0 (by decide) (by decide) (by decide) (by decide) (by decide) (by decide),
   c4_single_bit_flip_in_checked_bytes_detected.2 ([0xEB, 0x90, 0xDD] ++ List.replicate 28 0)
      0xDD 0 (by decide) (by decide) (by decide)⟩

/-- C9 witness: polling the disconnected sample state raises
`ConnectionError`; setting speed 100 on the same disconnected state
enqueues the built frame. -/
theorem c9_poll_checks_connection_setters_do_not_witness :
    poll_status sampleState = (.error .connectionError, sampleState) ∧
    set_speed 100 sampleState =
      (.ok true, { sampleState with cmd_queue := [_build_speed_command 100] }) :=
  ⟨c9_poll_checks_connection_setters_do_not.1 sampleState rfl,
   c9_poll_checks_connection_setters_do_not.2.1 100 sampleState rfl
     (by decide) (by decide) (by decide)⟩

end PyFlyWheel
